import Mathlib

/-!
Shallow embedding of the audio-processing backend in `src/app.py`: the Flask
handler `process_audio` (route `/process-audio`) and the helper
`get_semitone_shift`.

Modelling choices:
* The effects of every external collaborator (HTTP download, SoundStat
  analysis, librosa DSP, basic-pitch transcription, Supabase storage and
  database) are captured by an `Env` record holding the outcome each
  collaborator would produce for this job, and the handler is embedded as a
  pure function from `Env` and the request JSON to the HTTP response together
  with an ordered trace of the externally visible events (downloads, file
  writes, uploads, database updates, workspace removal).
* Audio signals are lists of rational samples; the DSP collaborators
  (`librosa.effects.pitch_shift` / `time_stretch`) are opaque functions in the
  `Env`.  `np.array_equal(y, modified_y)` becomes list equality.
* Python exceptions are modelled with `Except`: `requests` exceptions and
  generic exceptions propagate to the handler's two `except` clauses, which
  produce the 500 responses; the `tempfile.TemporaryDirectory` context manager
  emits a `removeDir` event on every exit path of its block.
* JSON request fields are assumed well-typed per the API contract (string
  fields are strings, `desired_tempo` a number); an ill-typed field would make
  the Python raise inside the handler, a case none of the claims touches.
-/

namespace AudioBackend

/-- A JSON scalar value as used by the request body. -/
inductive JVal where
  | str (s : String)
  | num (q : ℚ)
deriving DecidableEq

/-- Rendering of a JSON value into a Python f-string interpolation. -/
def JVal.toStr : JVal → String
  | .str s => s
  | .num q => toString q

/-- `data.get(key)` on a JSON object represented as an association list. -/
def jget : List (String × JVal) → String → Option JVal
  | [], _ => none
  | (k, v) :: rest, key => if k = key then some v else jget rest key

/-- Python truthiness of an optional JSON value (`None`, `""` and `0` are
falsy), as used by `if not all([...])`. -/
def truthy : Option JVal → Bool
  | none => false
  | some (.str s) => s ≠ ""
  | some (.num q) => q ≠ 0

/-- Python truthiness of an optional string (`None` and `""` are falsy). -/
def struthy : Option String → Bool
  | none => false
  | some s => s ≠ ""

/-- Python truthiness of an optional number (`None` and `0` are falsy). -/
def qtruthy : Option ℚ → Bool
  | none => false
  | some q => q ≠ 0

/-- A string-typed field extracted with `data.get`. -/
def strField (d : List (String × JVal)) (k : String) : Option String :=
  match jget d k with
  | some (.str s) => some s
  | _ => none

/-- A number-typed field extracted with `data.get`. -/
def numField (d : List (String × JVal)) (k : String) : Option ℚ :=
  match jget d k with
  | some (.num q) => some q
  | _ => none

/-- The chromatic `key_map` table of `get_semitone_shift` in `src/app.py`. -/
def key_map : List (String × Int) :=
  [("C", 0), ("C#", 1), ("Db", 1), ("D", 2), ("D#", 3), ("Eb", 3), ("E", 4),
   ("F", 5), ("F#", 6), ("Gb", 6), ("G", 7), ("G#", 8), ("Ab", 8), ("A", 9),
   ("A#", 10), ("Bb", 10), ("B", 11)]

/-- Lookup in `key_map` (`key_map[root]` guarded by `root in key_map`). -/
def keyLookup : List (String × Int) → String → Option Int
  | [], _ => none
  | (k, v) :: rest, key => if k = key then some v else keyLookup rest key

/-- `key.split(" ")[0]`: the leading token of a key string, i.e. its longest
space-free leading run (on an empty string or a leading space, `split(" ")[0]`
is `""`, as here). -/
def rootOf (s : String) : String :=
  String.mk (s.toList.takeWhile (fun c => c ≠ ' '))

/-- `get_semitone_shift(current_key, target_key)` from `src/app.py`: signed
semitone distance between the roots of the two key strings, `0` when either
root is not in `key_map`.  The return type is a bare integer: the function
carries no extra signal distinguishing an unrecognized root from a real
zero shift. -/
def get_semitone_shift (current_key target_key : String) : Int :=
  let current_root := rootOf current_key
  let target_root := rootOf target_key
  match keyLookup key_map current_root, keyLookup key_map target_root with
  | some cv, some tv => tv - cv
  | _, _ => 0

/-- Externally visible events of one request, in order of occurrence. -/
inductive Event where
  | download (url : String)
  | writeFile (path : String)
  | analysisRequest
  | pitchShiftCall (steps : Int)
  | timeStretchCall (rate : ℚ)
  | upload (bucket : String) (path : String) (options : List (String × String))
  | transcribeCall
  | dbUpdate (jobStatus : String) (detectedKey : Option String)
      (detectedTempo : Option ℚ) (processedUrl midiUrl : Option String)
  | removeDir (path : String)
deriving DecidableEq

/-- The two `except` clauses of the handler: `requests.exceptions.
RequestException` and the catch-all `Exception`. -/
inductive PyExc where
  | requestExc
  | generalExc
deriving DecidableEq

/-- Outcomes each external collaborator would produce for this job, plus the
workspace path allocated by `tempfile.TemporaryDirectory`. -/
structure Env where
  tmpdir : String
  downloadStatus : Nat
  soundstatConfigured : Bool
  analysisResult : Except Unit (Option String × Option ℚ)
  loadedSignal : List ℚ
  sampleRate : Nat
  pitch_shift : List ℚ → Nat → Int → List ℚ
  time_stretch : List ℚ → ℚ → List ℚ
  uploadProcessedOk : Bool
  transcription : Except Unit String
  uploadMidiOk : Bool
  dbOk : Bool
  publicUrlOf : String → String → String

/-- `os.path.join(tmpdir, "input_audio.wav")`. -/
def local_audio_path (env : Env) : String := env.tmpdir ++ "/input_audio.wav"

/-- `os.path.join(tmpdir, "processed_audio.wav")`. -/
def processed_audio_path (env : Env) : String :=
  env.tmpdir ++ "/processed_audio.wav"

/-- `os.path.join(tmpdir, "midi_output")`. -/
def midi_output_dir (env : Env) : String := env.tmpdir ++ "/midi_output"

/-- Storage object path of the processed-audio artifact:
`f"processed_audio/{user_id}/{audio_file_id}_processed.wav"`. -/
def processedStoragePath (user_id audio_file_id : String) : String :=
  "processed_audio/" ++ user_id ++ "/" ++ audio_file_id ++ "_processed.wav"

/-- Storage object path of the MIDI artifact:
`f"midi_files/{user_id}/{audio_file_id}.mid"`. -/
def midiStoragePath (user_id audio_file_id : String) : String :=
  "midi_files/" ++ user_id ++ "/" ++ audio_file_id ++ ".mid"

/-- Stage 2 (SoundStat analysis): detected key and tempo, with the request
event when the collaborator is configured.  Any `requests` failure or parsing
failure is caught inside the stage and degrades both fields to `None`. -/
def analysisStage (env : Env) : (Option String × Option ℚ) × List Event :=
  if env.soundstatConfigured then
    match env.analysisResult with
    | .ok kt => (kt, [Event.analysisRequest])
    | .error _ => ((none, none), [Event.analysisRequest])
  else ((none, none), [])

/-- The detected key/tempo pair produced by the analysis stage. -/
def detectedOf (env : Env) : Option String × Option ℚ := (analysisStage env).1

/-- Pitch shifting: applied only when `desired_key and detected_key` is truthy
and the computed shift is nonzero. -/
def pitchStage (env : Env) (desired_key detected_key : Option String)
    (m : List ℚ) : List ℚ × List Event :=
  if struthy desired_key && struthy detected_key then
    let shift := get_semitone_shift (detected_key.getD "") (desired_key.getD "")
    if shift ≠ 0 then
      (env.pitch_shift m env.sampleRate shift, [Event.pitchShiftCall shift])
    else (m, [])
  else (m, [])

/-- The tempo ratio `desired_tempo / detected_tempo`, computed only under the
truthiness guard `if desired_tempo and detected_tempo` (so the division never
sees a zero or missing detected tempo); identity `1` otherwise. -/
def tempoRatio (desired detected : Option ℚ) : ℚ :=
  if qtruthy desired && qtruthy detected then desired.getD 0 / detected.getD 0
  else 1

/-- Time stretching: applied only when both tempos are truthy and the ratio
differs from `1.0`. -/
def tempoStage (env : Env) (desired detected : Option ℚ) (m : List ℚ) :
    List ℚ × List Event :=
  if qtruthy desired && qtruthy detected then
    if tempoRatio desired detected ≠ 1 then
      (env.time_stretch m (tempoRatio desired detected),
       [Event.timeStretchCall (tempoRatio desired detected)])
    else (m, [])
  else (m, [])

/-- The working buffer after both transform stages (the value of `modified_y`
at line 110 of `src/app.py`). -/
def finalSignal (env : Env) (desired_key : Option String)
    (desired_tempo : Option ℚ) : List ℚ :=
  (tempoStage env desired_tempo (detectedOf env).2
    (pitchStage env desired_key (detectedOf env).1 env.loadedSignal).1).1

/-- Saving and uploading the processed audio, guarded by
`np.array_equal(y, modified_y) == False`.  A storage failure raises a generic
exception that propagates to the handler's catch-all clause. -/
def processedPublish (env : Env) (user_id audio_file_id : String)
    (y m : List ℚ) : Except PyExc (Option String) × List Event :=
  if y ≠ m then
    let path := processedStoragePath user_id audio_file_id
    let evs := [Event.writeFile (processed_audio_path env),
                Event.upload "processed-audio" path [("contentType", "audio/wav")]]
    if env.uploadProcessedOk then
      (.ok (some (env.publicUrlOf "processed-audio" path)), evs)
    else (.error .generalExc, evs)
  else (.ok none, [])

/-- MIDI conversion and upload.  The whole block sits in its own
`try/except`, so any failure (transcription or upload) only leaves
`midi_file_url` at `None`. -/
def midiStage (env : Env) (user_id audio_file_id : String) :
    Option String × List Event :=
  match env.transcription with
  | .error _ => (none, [Event.transcribeCall])
  | .ok fname =>
    let path := midiStoragePath user_id audio_file_id
    let evs := [Event.transcribeCall,
                Event.writeFile (midi_output_dir env ++ "/" ++ fname),
                Event.upload "midi-files" path [("contentType", "audio/midi")]]
    if env.uploadMidiOk then
      (some (env.publicUrlOf "midi-files" path), evs)
    else (none, evs)

/-- Database update: status `"modified"` when a processed-audio URL is
present, `"analyzed"` otherwise; a failure propagates out of the block. -/
def dbStage (env : Env) (detected_key : Option String)
    (detected_tempo : Option ℚ) (processedUrl midiUrl : Option String) :
    Except PyExc Unit × List Event :=
  let st := if processedUrl.isSome then "modified" else "analyzed"
  let evs := [Event.dbUpdate st detected_key detected_tempo processedUrl midiUrl]
  if env.dbOk then (.ok (), evs) else (.error .generalExc, evs)

/-- The JSON body returned by the handler: the 400/500 error bodies carry a
status `"error"` and a message; the 200 body carries status `"success"` and
the analysis fields and artifact URLs. -/
inductive Response where
  | err (code : Nat) (message : String)
  | ok (detected_key : Option String) (detected_tempo : Option ℚ)
      (processed_audio_url midi_file_url : Option String)
deriving DecidableEq

/-- The `"status"` field of the response body. -/
def Response.statusField : Response → String
  | .err _ _ => "error"
  | .ok _ _ _ _ => "success"

/-- The `"processed_audio_url"` field of the response body (absent on error). -/
def Response.processedUrl : Response → Option String
  | .err _ _ => none
  | .ok _ _ p _ => p

/-- The `"midi_file_url"` field of the response body (absent on error). -/
def Response.midiUrl : Response → Option String
  | .err _ _ => none
  | .ok _ _ _ m => m

/-- The message prefix each `except` clause puts in the 500 body. -/
def errMessage : PyExc → String
  | .requestExc => "External service error"
  | .generalExc => "An unexpected error occurred"

/-- The body of the `with tempfile.TemporaryDirectory()` block: download,
analysis, transforms, publication, MIDI, database update.  `raise_for_status`
on the download raises for any status of 400 or above; nothing after it runs
in that case. -/
def runBody (env : Env) (user_id audio_file_id url : String)
    (desired_key : Option String) (desired_tempo : Option ℚ) :
    Except PyExc Response × List Event :=
  if 400 ≤ env.downloadStatus then
    (.error .requestExc, [Event.download url])
  else
    let dk := (detectedOf env).1
    let dt := (detectedOf env).2
    let y := env.loadedSignal
    let m1 := (pitchStage env desired_key dk y).1
    let m2 := (tempoStage env desired_tempo dt m1).1
    let pub := processedPublish env user_id audio_file_id y m2
    let evs1 := [Event.download url, Event.writeFile (local_audio_path env)] ++
      (analysisStage env).2 ++ (pitchStage env desired_key dk y).2 ++
      (tempoStage env desired_tempo dt m1).2 ++ pub.2
    match pub.1 with
    | .error e => (.error e, evs1)
    | .ok processedUrl =>
      let mid := midiStage env user_id audio_file_id
      let db := dbStage env dk dt processedUrl mid.1
      let evs2 := evs1 ++ mid.2 ++ db.2
      match db.1 with
      | .error e => (.error e, evs2)
      | .ok _ => (.ok (Response.ok dk dt processedUrl mid.1), evs2)

/-- Leaving the `with` block removes the temporary directory on every exit
path; a propagated exception is then rendered by the matching `except`
clause as a 500 response. -/
def wrap (env : Env) (r : Except PyExc Response × List Event) :
    Response × List Event :=
  match r.1 with
  | .ok resp => (resp, r.2 ++ [Event.removeDir env.tmpdir])
  | .error e => (.err 500 (errMessage e), r.2 ++ [Event.removeDir env.tmpdir])

/-- `data.get("audio_file_url")` rendered as the string used downstream. -/
def reqUrl (data : List (String × JVal)) : String :=
  ((jget data "audio_file_url").getD (.str "")).toStr

/-- `data.get("user_id")` rendered as the string used downstream. -/
def reqUser (data : List (String × JVal)) : String :=
  ((jget data "user_id").getD (.str "")).toStr

/-- `data.get("audio_file_id")` rendered as the string used downstream. -/
def reqFile (data : List (String × JVal)) : String :=
  ((jget data "audio_file_id").getD (.str "")).toStr

/-- `data.get("desired_key")`. -/
def reqKey (data : List (String × JVal)) : Option String :=
  strField data "desired_key"

/-- `data.get("desired_tempo")`. -/
def reqTempo (data : List (String × JVal)) : Option ℚ :=
  numField data "desired_tempo"

/-- The handler `process_audio` of `src/app.py`: request validation, then the
workspace-scoped pipeline, producing the HTTP response body and the event
trace.  The validation failure path makes no external call and allocates no
workspace. -/
def process_audio (env : Env) (data : List (String × JVal)) :
    Response × List Event :=
  if !(truthy (jget data "audio_file_url") && truthy (jget data "user_id") &&
       truthy (jget data "audio_file_id")) then
    (.err 400 "Missing required parameters", [])
  else
    wrap env (runBody env (reqUser data) (reqFile data) (reqUrl data)
      (reqKey data) (reqTempo data))

end AudioBackend

namespace AudioBackend

/-- A concrete environment in which every collaborator succeeds. -/
def envOk : Env :=
  { tmpdir := "/tmp/job"
    downloadStatus := 200
    soundstatConfigured := true
    analysisResult := .ok (some "C Major", some 100)
    loadedSignal := [0, 1, 2]
    sampleRate := 44100
    pitch_shift := fun _ _ _ => [5, 5, 5]
    time_stretch := fun _ _ => [7, 7]
    uploadProcessedOk := true
    transcription := .ok "input_audio_basic_pitch.mid"
    uploadMidiOk := true
    dbOk := true
    publicUrlOf := fun b p => "https://x.supabase.co/" ++ b ++ "/" ++ p }

/-- A concrete request with all required fields and a desired key. -/
def dataShift : List (String × JVal) :=
  [("audio_file_url", .str "https://s/a.wav"), ("user_id", .str "alice"),
   ("audio_file_id", .str "job1"), ("desired_key", .str "D Major")]

end AudioBackend

namespace AudioBackend

/-- An environment identical to `envOk` except that the source download
returns HTTP 404. -/
def env404 : Env := { envOk with downloadStatus := 404 }

/-- C6: the claim states that `semitoneDistance` returns 0 *and additionally
signals that the input was unrecognized*, making an unrecognized pair
distinguishable from a genuine zero shift.  Counterexample: the source's
`get_semitone_shift` returns a bare integer; on the unrecognized pair
("H Major", "C Major") — whose roots differ — it returns exactly the same
value 0 as on the recognized equal pair ("C Major", "C Major"), so the two
cases are not distinguishable from the return value. -/
theorem c6_counterexample :
    get_semitone_shift "H Major" "C Major" = 0 ∧
    get_semitone_shift "C Major" "C Major" = 0 ∧
    get_semitone_shift "H Major" "C Major" =
      get_semitone_shift "C Major" "C Major" := by
  decide

/-- C6 (amended): whenever either key's root is not in the chromatic table,
`get_semitone_shift` returns 0, with no accompanying signal that the input
was unrecognized. -/
theorem c6_amended_unrecognized_zero (k1 k2 : String)
    (h : keyLookup key_map (rootOf k1) = none ∨
         keyLookup key_map (rootOf k2) = none) :
    get_semitone_shift k1 k2 = 0 := by
  unfold get_semitone_shift
  cases h1 : keyLookup key_map (rootOf k1) <;>
    cases h2 : keyLookup key_map (rootOf k2) <;> simp_all

/-- C6 (amended) at a concrete unrecognized root. -/
theorem c6_amended_witness : get_semitone_shift "H Major" "C Major" = 0 :=
  c6_amended_unrecognized_zero "H Major" "C Major" (Or.inl (by decide))

/-- C4: when any of the three required fields (`audio_file_url`, `user_id`,
`audio_file_id`) is missing or empty (Python-falsy), the handler returns the
400 "Missing required parameters" error immediately and the event trace is
empty: no download, no analysis request, no DSP call, no upload and no
database update are performed. -/
theorem c4_missing_fields_immediate_reject (env : Env)
    (data : List (String × JVal))
    (h : truthy (jget data "audio_file_url") = false ∨
         truthy (jget data "user_id") = false ∨
         truthy (jget data "audio_file_id") = false) :
    process_audio env data = (.err 400 "Missing required parameters", []) := by
  unfold process_audio
  rcases h with h | h | h <;> simp [h]

/-- C4 at a concrete request lacking `user_id`. -/
theorem c4_witness :
    process_audio envOk
      [("audio_file_url", JVal.str "https://s/a.wav"),
       ("audio_file_id", JVal.str "job1")] =
      (.err 400 "Missing required parameters", []) :=
  c4_missing_fields_immediate_reject envOk _ (Or.inr (Or.inl (by decide)))

/-- C2: when the source download returns a non-success HTTP status (any
status of 400 or above, e.g. 404), the job terminates with the 500 error
response of the `requests` exception handler, the only events are the
download attempt itself followed by the workspace removal — so no analysis,
transform, transcription, upload or database stage ran — and the workspace
directory is removed before the handler returns. -/
theorem c2_download_failure_fatal (env : Env) (data : List (String × JVal))
    (h1 : truthy (jget data "audio_file_url") = true)
    (h2 : truthy (jget data "user_id") = true)
    (h3 : truthy (jget data "audio_file_id") = true)
    (hdl : 400 ≤ env.downloadStatus) :
    process_audio env data =
      (.err 500 "External service error",
       [Event.download (reqUrl data), Event.removeDir env.tmpdir]) := by
  unfold process_audio runBody wrap
  simp [h1, h2, h3, hdl, errMessage]

/-- C2 at a concrete request against an environment whose download returns
HTTP 404. -/
theorem c2_witness :
    process_audio env404 dataShift =
      (.err 500 "External service error",
       [Event.download (reqUrl dataShift), Event.removeDir env404.tmpdir]) :=
  c2_download_failure_fatal env404 dataShift (by decide) (by decide)
    (by decide) (by decide)

end AudioBackend

namespace AudioBackend

/-- Abbreviation: the pitch stage as invoked by the pipeline. -/
def pitchOut (env : Env) (data : List (String × JVal)) : List ℚ × List Event :=
  pitchStage env (reqKey data) (detectedOf env).1 env.loadedSignal

/-- Abbreviation: the tempo stage as invoked by the pipeline. -/
def tempoOut (env : Env) (data : List (String × JVal)) : List ℚ × List Event :=
  tempoStage env (reqTempo data) (detectedOf env).2 (pitchOut env data).1

/-- Abbreviation: the processed-audio publication as invoked by the
pipeline. -/
def pubOut (env : Env) (data : List (String × JVal)) :
    Except PyExc (Option String) × List Event :=
  processedPublish env (reqUser data) (reqFile data) env.loadedSignal
    (tempoOut env data).1

/-- Abbreviation: the MIDI stage as invoked by the pipeline. -/
def midOut (env : Env) (data : List (String × JVal)) :
    Option String × List Event :=
  midiStage env (reqUser data) (reqFile data)

/-- The events of the workspace block in pipeline order. -/
def bodyEvents (env : Env) (data : List (String × JVal)) : List Event :=
  [Event.download (reqUrl data), Event.writeFile (local_audio_path env)] ++
  (analysisStage env).2 ++ (pitchOut env data).2 ++ (tempoOut env data).2 ++
  (pubOut env data).2 ++
  (match (pubOut env data).1 with
   | .error _ => []
   | .ok pu => (midOut env data).2 ++
       (dbStage env (detectedOf env).1 (detectedOf env).2 pu
         (midOut env data).1).2)

/-- With the three required fields truthy, the handler is the wrapped
workspace block. -/
theorem process_audio_valid (env : Env) (data : List (String × JVal))
    (h1 : truthy (jget data "audio_file_url") = true)
    (h2 : truthy (jget data "user_id") = true)
    (h3 : truthy (jget data "audio_file_id") = true) :
    process_audio env data =
      wrap env (runBody env (reqUser data) (reqFile data) (reqUrl data)
        (reqKey data) (reqTempo data)) := by
  unfold process_audio
  simp [h1, h2, h3]

/-- Both exit paths of the workspace block append the workspace removal. -/
theorem wrap_snd (env : Env) (r : Except PyExc Response × List Event) :
    (wrap env r).2 = r.2 ++ [Event.removeDir env.tmpdir] := by
  unfold wrap
  rcases r with ⟨r1, evs⟩
  rcases r1 <;> simp

/-- The workspace block's events on a successful download, in pipeline
order. -/
theorem runBody_snd (env : Env) (u f url : String) (dkey : Option String)
    (dtempo : Option ℚ) (hdl : env.downloadStatus < 400) :
    (runBody env u f url dkey dtempo).2 =
      [Event.download url, Event.writeFile (local_audio_path env)] ++
      (analysisStage env).2 ++
      (pitchStage env dkey (detectedOf env).1 env.loadedSignal).2 ++
      (tempoStage env dtempo (detectedOf env).2
        (pitchStage env dkey (detectedOf env).1 env.loadedSignal).1).2 ++
      (processedPublish env u f env.loadedSignal
        (tempoStage env dtempo (detectedOf env).2
          (pitchStage env dkey (detectedOf env).1 env.loadedSignal).1).1).2 ++
      (match (processedPublish env u f env.loadedSignal
          (tempoStage env dtempo (detectedOf env).2
            (pitchStage env dkey (detectedOf env).1 env.loadedSignal).1).1).1 with
       | .error _ => []
       | .ok pu => (midiStage env u f).2 ++
           (dbStage env (detectedOf env).1 (detectedOf env).2 pu
             (midiStage env u f).1).2) := by
  have hdl' : ¬ 400 ≤ env.downloadStatus := by omega
  simp only [runBody, detectedOf, hdl', if_false]
  rcases hpub : (processedPublish env u f env.loadedSignal
      (tempoStage env dtempo (analysisStage env).1.2
        (pitchStage env dkey (analysisStage env).1.1 env.loadedSignal).1).1).1
    with e | pu
  · simp [hpub]
  · simp only [hpub]
    rcases hdb : (dbStage env (analysisStage env).1.1 (analysisStage env).1.2
        pu (midiStage env u f).1).1 with e | uu <;>
      simp [hdb]

/-- With valid fields and a successful download, the trace is the workspace
block's events followed by the workspace removal. -/
theorem trace_shape (env : Env) (data : List (String × JVal))
    (h1 : truthy (jget data "audio_file_url") = true)
    (h2 : truthy (jget data "user_id") = true)
    (h3 : truthy (jget data "audio_file_id") = true)
    (hdl : env.downloadStatus < 400) :
    (process_audio env data).2 =
      bodyEvents env data ++ [Event.removeDir env.tmpdir] := by
  rw [process_audio_valid env data h1 h2 h3, wrap_snd,
    runBody_snd env (reqUser data) (reqFile data) (reqUrl data)
      (reqKey data) (reqTempo data) hdl]
  simp only [bodyEvents, pitchOut, tempoOut, pubOut, midOut]

/-- The analysis stage emits at most the analysis request event. -/
theorem analysisStage_events (env : Env) :
    (analysisStage env).2 = [] ∨
    (analysisStage env).2 = [Event.analysisRequest] := by
  unfold analysisStage
  rcases env.soundstatConfigured <;> rcases env.analysisResult <;> simp

/-- The pitch stage emits at most one pitch-shift call. -/
theorem pitchStage_events (env : Env) (a b : Option String) (m : List ℚ) :
    (pitchStage env a b m).2 = [] ∨
    (pitchStage env a b m).2 =
      [Event.pitchShiftCall (get_semitone_shift (b.getD "") (a.getD ""))] := by
  simp only [pitchStage]
  split
  · split <;> simp
  · simp

/-- The tempo stage emits at most one time-stretch call, carrying the
computed ratio. -/
theorem tempoStage_events (env : Env) (d t : Option ℚ) (m : List ℚ) :
    (tempoStage env d t m).2 = [] ∨
    (tempoStage env d t m).2 = [Event.timeStretchCall (tempoRatio d t)] := by
  simp only [tempoStage]
  split
  · split <;> simp
  · simp

/-- The processed-audio publication emits either nothing or exactly the
workspace write followed by the storage upload. -/
theorem processedPublish_events (env : Env) (u f : String) (y m : List ℚ) :
    (processedPublish env u f y m).2 = [] ∨
    (processedPublish env u f y m).2 =
      [Event.writeFile (processed_audio_path env),
       Event.upload "processed-audio" (processedStoragePath u f)
         [("contentType", "audio/wav")]] := by
  simp only [processedPublish]
  split
  · split <;> simp
  · simp

/-- The MIDI stage emits the transcription call, possibly followed by the
workspace write of the collaborator's output and the storage upload. -/
theorem midiStage_events (env : Env) (u f : String) :
    (midiStage env u f).2 = [Event.transcribeCall] ∨
    ∃ fn, (midiStage env u f).2 =
      [Event.transcribeCall,
       Event.writeFile (midi_output_dir env ++ "/" ++ fn),
       Event.upload "midi-files" (midiStoragePath u f)
         [("contentType", "audio/midi")]] := by
  rcases henv : env.transcription with e | fn
  · left
    simp [midiStage, henv]
  · right
    refine ⟨fn, ?_⟩
    simp only [midiStage, henv]
    split <;> simp

/-- The database stage emits exactly one database update. -/
theorem dbStage_events (env : Env) (dk : Option String) (dt : Option ℚ)
    (pu mu : Option String) :
    (dbStage env dk dt pu mu).2 =
      [Event.dbUpdate (if pu.isSome then "modified" else "analyzed")
        dk dt pu mu] := by
  simp only [dbStage]
  split <;> split <;> simp

end AudioBackend

namespace AudioBackend

/-- Left cancellation for string append. -/
theorem str_append_cancel {a b c : String} (h : a ++ b = a ++ c) : b = c := by
  have hd : (a ++ b).data = (a ++ c).data := congrArg String.data h
  rw [String.data_append, String.data_append] at hd
  exact String.ext (List.append_cancel_left hd)

/-- The processed-audio staging path differs from the original download
path. -/
theorem processed_ne_local (env : Env) :
    processed_audio_path env ≠ local_audio_path env := by
  intro h
  have := str_append_cancel h
  simp at this

/-- A MIDI output file path differs from the original download path. -/
theorem midiFile_ne_local (env : Env) (fn : String) :
    midi_output_dir env ++ "/" ++ fn ≠ local_audio_path env := by
  intro h
  have hd : (midi_output_dir env ++ "/" ++ fn).data =
      (local_audio_path env).data := congrArg String.data h
  simp only [midi_output_dir, local_audio_path, String.data_append,
    List.append_assoc] at hd
  have := List.append_cancel_left hd
  simp at this

/-- A MIDI output file path differs from the processed-audio staging path. -/
theorem midiFile_ne_processed (env : Env) (fn : String) :
    midi_output_dir env ++ "/" ++ fn ≠ processed_audio_path env := by
  intro h
  have hd : (midi_output_dir env ++ "/" ++ fn).data =
      (processed_audio_path env).data := congrArg String.data h
  simp only [midi_output_dir, processed_audio_path, String.data_append,
    List.append_assoc] at hd
  have := List.append_cancel_left hd
  simp at this

/-- Every event of a valid run's trace comes from one of the pipeline's
stages. -/
theorem mem_trace_cases (env : Env) (data : List (String × JVal)) (e : Event)
    (h1 : truthy (jget data "audio_file_url") = true)
    (h2 : truthy (jget data "user_id") = true)
    (h3 : truthy (jget data "audio_file_id") = true)
    (hdl : env.downloadStatus < 400)
    (he : e ∈ (process_audio env data).2) :
    e = Event.download (reqUrl data) ∨
    e = Event.writeFile (local_audio_path env) ∨
    e = Event.analysisRequest ∨
    e ∈ (pitchOut env data).2 ∨
    e ∈ (tempoOut env data).2 ∨
    e ∈ (pubOut env data).2 ∨
    e ∈ (midOut env data).2 ∨
    (∃ st pu mu, e = Event.dbUpdate st (detectedOf env).1 (detectedOf env).2
      pu mu) ∨
    e = Event.removeDir env.tmpdir := by
  have ha := analysisStage_events env
  rw [trace_shape env data h1 h2 h3 hdl] at he
  rcases hpub : (pubOut env data).1 with ex | pu <;>
    simp only [bodyEvents, hpub, dbStage_events, List.append_assoc,
      List.mem_append, List.mem_cons, List.not_mem_nil, or_false, false_or,
      List.mem_singleton] at he <;>
    aesop

end AudioBackend

namespace AudioBackend

/-- The transcription call is always part of the MIDI stage's events. -/
theorem transcribe_mem_midiStage (env : Env) (u f : String) :
    Event.transcribeCall ∈ (midiStage env u f).2 := by
  rcases midiStage_events env u f with h | ⟨fn, h⟩ <;> simp [h]

/-- C3: when the analysis collaborator is unconfigured or its call fails
(unreachable / non-success / malformed response), the job does not fail:
`detected_key` and `detected_tempo` are both absent in the response, the
transcription and database stages still run, and — the other collaborators
behaving — the outcome is the 200 "success" response, not an error. -/
theorem c3_analysis_failure_nonfatal (env : Env) (data : List (String × JVal))
    (h1 : truthy (jget data "audio_file_url") = true)
    (h2 : truthy (jget data "user_id") = true)
    (h3 : truthy (jget data "audio_file_id") = true)
    (hdl : env.downloadStatus < 400)
    (ha : env.soundstatConfigured = false ∨ env.analysisResult = .error ())
    (hdb : env.dbOk = true) :
    (process_audio env data).1 =
      Response.ok none none none (midOut env data).1 ∧
    (process_audio env data).1.statusField = "success" ∧
    Event.transcribeCall ∈ (process_audio env data).2 ∧
    Event.dbUpdate "analyzed" none none none (midOut env data).1 ∈
      (process_audio env data).2 := by
  have hdl' : ¬ 400 ≤ env.downloadStatus := by omega
  have hd : detectedOf env = (none, none) := by
    rcases ha with ha | ha <;> rcases hc : env.soundstatConfigured <;>
      simp_all [detectedOf, analysisStage]
  have hrun : runBody env (reqUser data) (reqFile data) (reqUrl data)
      (reqKey data) (reqTempo data) =
      (.ok (Response.ok none none none (midOut env data).1),
       [Event.download (reqUrl data),
        Event.writeFile (local_audio_path env)] ++
       (analysisStage env).2 ++ (midOut env data).2 ++
       [Event.dbUpdate "analyzed" none none none (midOut env data).1]) := by
    simp only [runBody, hdl', if_false, hd]
    simp [pitchStage, struthy, tempoStage, qtruthy, processedPublish,
      dbStage, hdb, midOut]
  rw [process_audio_valid env data h1 h2 h3, hrun]
  unfold wrap
  refine ⟨rfl, rfl, ?_, ?_⟩
  · have hm : Event.transcribeCall ∈ (midOut env data).2 := by
      rw [midOut]
      exact transcribe_mem_midiStage env (reqUser data) (reqFile data)
    simp [List.mem_append, hm]
  · simp [List.mem_append]

/-- C3 witnessed on a concrete environment whose analysis collaborator is
unreachable. -/
theorem c3_witness :
    (process_audio { envOk with analysisResult := .error () } dataShift).1 =
      Response.ok none none none
        (midOut { envOk with analysisResult := .error () } dataShift).1 ∧
    (process_audio { envOk with analysisResult := .error () }
        dataShift).1.statusField = "success" ∧
    Event.transcribeCall ∈
      (process_audio { envOk with analysisResult := .error () } dataShift).2 ∧
    Event.dbUpdate "analyzed" none none none
        (midOut { envOk with analysisResult := .error () } dataShift).1 ∈
      (process_audio { envOk with analysisResult := .error () } dataShift).2 :=
  c3_analysis_failure_nonfatal { envOk with analysisResult := .error () }
    dataShift (by decide) (by decide) (by decide) (by decide)
    (Or.inr rfl) rfl

/-- C9: computing the tempo ratio is total and never divides by a zero or
missing detected tempo: (i) when the detected tempo is `None` or `0`, or the
desired tempo is `None`, the ratio stays at the identity `1`; (ii) the ratio
can differ from `1` only when the detected tempo is a present non-zero
value, in which case it equals `desired / detected`; (iii) in such degenerate
cases the pipeline emits no time-stretch call at all. -/
theorem c9_tempo_ratio_safe (desired detected : Option ℚ) (env : Env)
    (data : List (String × JVal)) :
    ((detected = none ∨ detected = some 0 ∨ desired = none) →
      tempoRatio desired detected = 1) ∧
    (tempoRatio desired detected ≠ 1 →
      ∃ q, detected = some q ∧ q ≠ 0 ∧
        tempoRatio desired detected = desired.getD 0 / q) ∧
    (((detectedOf env).2 = none ∨ (detectedOf env).2 = some 0 ∨
        reqTempo data = none) →
      ∀ r, Event.timeStretchCall r ∉ (process_audio env data).2) := by
  refine ⟨?_, ?_, ?_⟩
  · rintro (h | h | h) <;> simp [tempoRatio, qtruthy, h]
  · intro h
    by_cases hg : (qtruthy desired && qtruthy detected) = true
    · have h2 : qtruthy detected = true := (Bool.and_eq_true .. ▸ hg).2
      rcases detected with _ | q
      · simp [qtruthy] at h2
      · refine ⟨q, rfl, ?_, ?_⟩
        · simpa [qtruthy] using h2
        · simp [tempoRatio, hg]
    · exfalso
      exact h (by simp [tempoRatio, hg])
  · intro h r hmem
    have hts : ∀ m, (tempoStage env (reqTempo data) (detectedOf env).2 m).2
        = [] := by
      intro m
      rcases h with h | h | h <;> simp [tempoStage, h, qtruthy]
    by_cases hv1 : truthy (jget data "audio_file_url") = true
    · by_cases hv2 : truthy (jget data "user_id") = true
      · by_cases hv3 : truthy (jget data "audio_file_id") = true
        · by_cases hdl : env.downloadStatus < 400
          · rcases mem_trace_cases env data _ hv1 hv2 hv3 hdl hmem with
              h' | h' | h' | h' | h' | h' | h' | ⟨st, pu, mu, h'⟩ | h'
            · simp at h'
            · simp at h'
            · simp at h'
            · rcases pitchStage_events env (reqKey data) (detectedOf env).1
                env.loadedSignal with hp | hp <;>
                rw [pitchOut] at h' <;> rw [hp] at h' <;> simp at h'
            · rw [tempoOut, hts] at h'
              simp at h'
            · rcases processedPublish_events env (reqUser data)
                (reqFile data) env.loadedSignal (tempoOut env data).1 with
                hu | hu <;> rw [pubOut] at h' <;> rw [hu] at h' <;>
                simp at h'
            · rcases midiStage_events env (reqUser data) (reqFile data) with
                hm | ⟨fn, hm⟩ <;> rw [midOut] at h' <;> rw [hm] at h' <;>
                simp at h'
            · simp at h'
            · simp at h'
          · have hdl2 : 400 ≤ env.downloadStatus := by omega
            rw [process_audio_valid env data hv1 hv2 hv3] at hmem
            unfold wrap runBody at hmem
            simp [hdl2] at hmem
        · unfold process_audio at hmem
          simp [hv3] at hmem
      · unfold process_audio at hmem
        simp [hv2] at hmem
    · unfold process_audio at hmem
      simp [hv1] at hmem

/-- C9 witnessed at a detected tempo of zero. -/
theorem c9_witness :
    tempoRatio (some 140) (some 0) = 1 ∧
    (∀ r, Event.timeStretchCall r ∉
      (process_audio { envOk with analysisResult := .ok (none, some 0) }
        dataShift).2) := by
  refine ⟨?_, ?_⟩
  · exact (c9_tempo_ratio_safe (some 140) (some 0)
      { envOk with analysisResult := .ok (none, some 0) } dataShift).1
      (Or.inr (Or.inl rfl))
  · exact (c9_tempo_ratio_safe (some 140) (some 0)
      { envOk with analysisResult := .ok (none, some 0) } dataShift).2.2
      (Or.inr (Or.inl (by decide)))

end AudioBackend

namespace AudioBackend

/-- Test for an upload event into a given storage bucket. -/
def isUploadTo (bucket : String) : Event → Bool
  | .upload b _ _ => b == bucket
  | _ => false

/-- The validation-failure path: 400 response and an empty trace. -/
theorem invalid_trace (env : Env) (data : List (String × JVal))
    (h : ¬(truthy (jget data "audio_file_url") = true ∧
           truthy (jget data "user_id") = true ∧
           truthy (jget data "audio_file_id") = true)) :
    process_audio env data = (.err 400 "Missing required parameters", []) := by
  unfold process_audio
  by_cases h1 : truthy (jget data "audio_file_url") = true <;>
    by_cases h2 : truthy (jget data "user_id") = true <;>
    by_cases h3 : truthy (jget data "audio_file_id") = true <;>
    simp_all

/-- The download-failure path: 500 response with only the download and the
workspace removal in the trace. -/
theorem dlfail_trace (env : Env) (data : List (String × JVal))
    (h1 : truthy (jget data "audio_file_url") = true)
    (h2 : truthy (jget data "user_id") = true)
    (h3 : truthy (jget data "audio_file_id") = true)
    (hdl : 400 ≤ env.downloadStatus) :
    process_audio env data =
      (.err 500 "External service error",
       [Event.download (reqUrl data), Event.removeDir env.tmpdir]) := by
  unfold process_audio runBody wrap
  simp [h1, h2, h3, hdl, errMessage]

/-- C8: when no transform applies — the pitch guard fails or the computed
shift is 0, and the tempo guard fails or the computed ratio is 1 — no
processed-audio file is written to the workspace, no upload into the
processed-audio bucket is attempted, and the response's processed-audio URL
is absent. -/
theorem c8_noop_frame (env : Env) (data : List (String × JVal))
    (hp : struthy (reqKey data) = false ∨
          struthy (detectedOf env).1 = false ∨
          get_semitone_shift ((detectedOf env).1.getD "")
            ((reqKey data).getD "") = 0)
    (ht : qtruthy (reqTempo data) = false ∨
          qtruthy (detectedOf env).2 = false ∨
          tempoRatio (reqTempo data) (detectedOf env).2 = 1) :
    (∀ e ∈ (process_audio env data).2,
      isUploadTo "processed-audio" e = false ∧
      e ≠ Event.writeFile (processed_audio_path env)) ∧
    (process_audio env data).1.processedUrl = none := by
  have hm1 : (pitchOut env data).1 = env.loadedSignal := by
    rcases hp with h | h | h <;> simp [pitchOut, pitchStage, h]
  have hm2 : (tempoOut env data).1 = env.loadedSignal := by
    rcases ht with h | h | h <;> simp [tempoOut, tempoStage, h, hm1]
  have hpub : pubOut env data = (.ok none, []) := by
    simp [pubOut, processedPublish, hm2]
  by_cases hv1 : truthy (jget data "audio_file_url") = true
  rotate_left
  · rw [invalid_trace env data (fun hh => hv1 hh.1)]
    simp [Response.processedUrl]
  by_cases hv2 : truthy (jget data "user_id") = true
  rotate_left
  · rw [invalid_trace env data (fun hh => hv2 hh.2.1)]
    simp [Response.processedUrl]
  by_cases hv3 : truthy (jget data "audio_file_id") = true
  rotate_left
  · rw [invalid_trace env data (fun hh => hv3 hh.2.2)]
    simp [Response.processedUrl]
  by_cases hdl : env.downloadStatus < 400
  rotate_left
  · rw [dlfail_trace env data hv1 hv2 hv3 (by omega)]
    constructor
    · intro e he
      simp only [List.mem_cons, List.not_mem_nil, or_false,
        List.mem_singleton] at he
      rcases he with h | h <;> subst h <;> exact ⟨rfl, by simp⟩
    · simp [Response.processedUrl]
  constructor
  · intro e he
    rcases mem_trace_cases env data e hv1 hv2 hv3 hdl he with
      h' | h' | h' | h' | h' | h' | h' | ⟨st, pu, mu, h'⟩ | h'
    · subst h'; exact ⟨rfl, by simp⟩
    · subst h'
      refine ⟨rfl, ?_⟩
      simp only [ne_eq, Event.writeFile.injEq]
      exact fun hh => processed_ne_local env hh.symm
    · subst h'; exact ⟨rfl, by simp⟩
    · rcases pitchStage_events env (reqKey data) (detectedOf env).1
        env.loadedSignal with hpE | hpE <;> rw [pitchOut, hpE] at h'
      · simp at h'
      · simp only [List.mem_singleton] at h'
        subst h'; exact ⟨rfl, by simp⟩
    · rcases tempoStage_events env (reqTempo data) (detectedOf env).2
        (pitchOut env data).1 with htE | htE <;> rw [tempoOut, htE] at h'
      · simp at h'
      · simp only [List.mem_singleton] at h'
        subst h'; exact ⟨rfl, by simp⟩
    · rw [hpub] at h'
      simp at h'
    · rcases midiStage_events env (reqUser data) (reqFile data) with
        hmE | ⟨fn, hmE⟩ <;> rw [midOut, hmE] at h'
      · simp only [List.mem_singleton] at h'
        subst h'; exact ⟨rfl, by simp⟩
      · simp only [List.mem_cons, List.not_mem_nil, or_false,
          List.mem_singleton] at h'
        rcases h' with h' | h' | h' <;> subst h'
        · exact ⟨rfl, by simp⟩
        · refine ⟨rfl, ?_⟩
          simp only [ne_eq, Event.writeFile.injEq]
          exact midiFile_ne_processed env fn
        · exact ⟨rfl, by simp⟩
    · subst h'; exact ⟨rfl, by simp⟩
    · subst h'; exact ⟨rfl, by simp⟩
  · rw [process_audio_valid env data hv1 hv2 hv3]
    have hdl' : ¬ 400 ≤ env.downloadStatus := by omega
    have hpub' : processedPublish env (reqUser data) (reqFile data)
        env.loadedSignal
        (tempoStage env (reqTempo data) (detectedOf env).2
          (pitchStage env (reqKey data) (detectedOf env).1
            env.loadedSignal).1).1 = (.ok none, []) := by
      have hx := hpub
      simp only [pubOut, tempoOut, pitchOut] at hx
      exact hx
    unfold wrap runBody
    simp only [hdl', if_false, hpub']
    rcases hdb : (dbStage env (detectedOf env).1 (detectedOf env).2 none
        (midiStage env (reqUser data) (reqFile data)).1).1 with e' | u <;>
      simp [hdb, Response.processedUrl]

/-- A request with only the three required fields. -/
def dataPlain : List (String × JVal) :=
  [("audio_file_url", .str "https://s/a.wav"), ("user_id", .str "alice"),
   ("audio_file_id", .str "job1")]

/-- C8 witnessed on a request with no desired key or tempo. -/
theorem c8_witness :
    (∀ e ∈ (process_audio envOk dataPlain).2,
      isUploadTo "processed-audio" e = false ∧
      e ≠ Event.writeFile (processed_audio_path envOk)) ∧
    (process_audio envOk dataPlain).1.processedUrl = none :=
  c8_noop_frame envOk dataPlain (Or.inl (by decide)) (Or.inl (by decide))

end AudioBackend

namespace AudioBackend

/-- C10: the handler reads only the five request fields `audio_file_url`,
`user_id`, `audio_file_id`, `desired_key`, `desired_tempo` — two requests
agreeing on these five fields produce identical responses and traces, so no
`want_transcription` (or any other opt-out) field can influence the job —
and on every valid run whose download succeeds and whose processed-audio
publication does not abort the request, the MIDI transcription of the
original audio is attempted. -/
theorem c10_transcription_unconditional (env : Env)
    (d1 d2 : List (String × JVal))
    (h1 : jget d1 "audio_file_url" = jget d2 "audio_file_url")
    (h2 : jget d1 "user_id" = jget d2 "user_id")
    (h3 : jget d1 "audio_file_id" = jget d2 "audio_file_id")
    (h4 : jget d1 "desired_key" = jget d2 "desired_key")
    (h5 : jget d1 "desired_tempo" = jget d2 "desired_tempo") :
    process_audio env d1 = process_audio env d2 ∧
    (truthy (jget d1 "audio_file_url") = true →
     truthy (jget d1 "user_id") = true →
     truthy (jget d1 "audio_file_id") = true →
     env.downloadStatus < 400 → env.uploadProcessedOk = true →
     Event.transcribeCall ∈ (process_audio env d1).2) := by
  constructor
  · have e1 : reqUrl d1 = reqUrl d2 := by unfold reqUrl; rw [h1]
    have e2 : reqUser d1 = reqUser d2 := by unfold reqUser; rw [h2]
    have e3 : reqFile d1 = reqFile d2 := by unfold reqFile; rw [h3]
    have e4 : reqKey d1 = reqKey d2 := by unfold reqKey strField; rw [h4]
    have e5 : reqTempo d1 = reqTempo d2 := by
      unfold reqTempo numField; rw [h5]
    unfold process_audio
    rw [h1, h2, h3, e1, e2, e3, e4, e5]
  · intro hv1 hv2 hv3 hdl hup
    have hpub : ∃ pu, (pubOut env d1).1 = .ok pu := by
      simp only [pubOut, processedPublish]
      split
      · simp [hup]
      · simp
    obtain ⟨pu, hpu⟩ := hpub
    rw [trace_shape env d1 hv1 hv2 hv3 hdl]
    have hm : Event.transcribeCall ∈ (midOut env d1).2 := by
      rw [midOut]
      exact transcribe_mem_midiStage env (reqUser d1) (reqFile d1)
    simp only [bodyEvents, hpu, List.append_assoc, List.mem_append]
    tauto

/-- A request identical to `dataPlain` plus an opt-out field the handler
never reads. -/
def dataWant : List (String × JVal) :=
  [("audio_file_url", .str "https://s/a.wav"), ("user_id", .str "alice"),
   ("audio_file_id", .str "job1"), ("want_transcription", .str "no")]

/-- C10 witnessed: adding `want_transcription` changes nothing and the
transcription is still attempted. -/
theorem c10_witness :
    process_audio envOk dataWant = process_audio envOk dataPlain ∧
    Event.transcribeCall ∈ (process_audio envOk dataWant).2 := by
  have h := c10_transcription_unconditional envOk dataWant dataPlain
    (by decide) (by decide) (by decide) (by decide) (by decide)
  exact ⟨h.1, h.2 (by decide) (by decide) (by decide) (by decide) rfl⟩

end AudioBackend

namespace AudioBackend

/-- C7: when both a nonzero pitch shift and a non-identity tempo ratio
apply, the working buffer is `time_stretch (pitch_shift original)` — pitch
shift strictly first, tempo stretch second, on the same evolving buffer —
the trace contains the pitch-shift call strictly before the time-stretch
call, the (changed) result is written to the separate staging path
`processed_audio.wav`, that path differs from the original download path,
and the original download path is written exactly once in the whole job. -/
theorem c7_transform_order (env : Env) (data : List (String × JVal))
    (h1 : truthy (jget data "audio_file_url") = true)
    (h2 : truthy (jget data "user_id") = true)
    (h3 : truthy (jget data "audio_file_id") = true)
    (hdl : env.downloadStatus < 400)
    (hkg : (struthy (reqKey data) && struthy (detectedOf env).1) = true)
    (hs : get_semitone_shift ((detectedOf env).1.getD "")
      ((reqKey data).getD "") ≠ 0)
    (htg : (qtruthy (reqTempo data) && qtruthy (detectedOf env).2) = true)
    (hr : tempoRatio (reqTempo data) (detectedOf env).2 ≠ 1)
    (hch : env.time_stretch
        (env.pitch_shift env.loadedSignal env.sampleRate
          (get_semitone_shift ((detectedOf env).1.getD "")
            ((reqKey data).getD "")))
        (tempoRatio (reqTempo data) (detectedOf env).2) ≠ env.loadedSignal) :
    (tempoOut env data).1 =
      env.time_stretch
        (env.pitch_shift env.loadedSignal env.sampleRate
          (get_semitone_shift ((detectedOf env).1.getD "")
            ((reqKey data).getD "")))
        (tempoRatio (reqTempo data) (detectedOf env).2) ∧
    (∃ l1 l2 l3, (process_audio env data).2 =
      l1 ++ [Event.pitchShiftCall (get_semitone_shift
          ((detectedOf env).1.getD "") ((reqKey data).getD ""))] ++
      l2 ++ [Event.timeStretchCall
          (tempoRatio (reqTempo data) (detectedOf env).2)] ++ l3) ∧
    Event.writeFile (processed_audio_path env) ∈ (process_audio env data).2 ∧
    processed_audio_path env ≠ local_audio_path env ∧
    (process_audio env data).2.count
      (Event.writeFile (local_audio_path env)) = 1 := by
  have hpm : (pitchOut env data).1 =
      env.pitch_shift env.loadedSignal env.sampleRate
        (get_semitone_shift ((detectedOf env).1.getD "")
          ((reqKey data).getD "")) := by
    simp [pitchOut, pitchStage, hkg, hs]
  have hpE : (pitchOut env data).2 =
      [Event.pitchShiftCall (get_semitone_shift
        ((detectedOf env).1.getD "") ((reqKey data).getD ""))] := by
    simp [pitchOut, pitchStage, hkg, hs]
  have htm : (tempoOut env data).1 =
      env.time_stretch
        (env.pitch_shift env.loadedSignal env.sampleRate
          (get_semitone_shift ((detectedOf env).1.getD "")
            ((reqKey data).getD "")))
        (tempoRatio (reqTempo data) (detectedOf env).2) := by
    simp [tempoOut, tempoStage, htg, hr, hpm]
  have htE : (tempoOut env data).2 =
      [Event.timeStretchCall
        (tempoRatio (reqTempo data) (detectedOf env).2)] := by
    simp [tempoOut, tempoStage, htg, hr]
  have hne : env.loadedSignal ≠ (tempoOut env data).1 := by
    rw [htm]
    exact fun hh => hch hh.symm
  have hpubE : (pubOut env data).2 =
      [Event.writeFile (processed_audio_path env),
       Event.upload "processed-audio"
         (processedStoragePath (reqUser data) (reqFile data))
         [("contentType", "audio/wav")]] := by
    rcases hu : env.uploadProcessedOk <;>
      simp [pubOut, processedPublish, hne, hu]
  have htail : ∀ tail,
      tail = (match (pubOut env data).1 with
       | .error _ => ([] : List Event)
       | .ok pu => (midOut env data).2 ++
           (dbStage env (detectedOf env).1 (detectedOf env).2 pu
             (midOut env data).1).2) →
      tail.count (Event.writeFile (local_audio_path env)) = 0 := by
    intro tail htl
    rcases hpu : (pubOut env data).1 with ex | pu <;> rw [hpu] at htl <;>
      subst htl
    · simp
    · rw [List.count_append]
      have hmc : (midOut env data).2.count
          (Event.writeFile (local_audio_path env)) = 0 := by
        rcases midiStage_events env (reqUser data) (reqFile data) with
          hmE | ⟨fn, hmE⟩ <;> rw [midOut, hmE]
        · simp
        · simp [List.count_cons, midiFile_ne_local env fn]
      rw [hmc, dbStage_events]
      simp
  refine ⟨htm, ?_, ?_, processed_ne_local env, ?_⟩
  · refine ⟨[Event.download (reqUrl data),
      Event.writeFile (local_audio_path env)] ++ (analysisStage env).2,
      [], (pubOut env data).2 ++
        (match (pubOut env data).1 with
         | .error _ => ([] : List Event)
         | .ok pu => (midOut env data).2 ++
             (dbStage env (detectedOf env).1 (detectedOf env).2 pu
               (midOut env data).1).2) ++ [Event.removeDir env.tmpdir], ?_⟩
    rw [trace_shape env data h1 h2 h3 hdl]
    simp only [bodyEvents, hpE, htE, List.append_assoc, List.nil_append,
      List.cons_append]
  · rw [trace_shape env data h1 h2 h3 hdl]
    simp only [bodyEvents, hpubE, List.append_assoc, List.mem_append]
    simp
  · rw [trace_shape env data h1 h2 h3 hdl]
    simp only [bodyEvents, hpE, htE, hpubE, List.append_assoc]
    rw [List.count_append]
    have h0 := htail _ rfl
    repeat rw [List.count_append]
    rw [h0]
    have hca : (analysisStage env).2.count
        (Event.writeFile (local_audio_path env)) = 0 := by
      rcases analysisStage_events env with ha | ha <;> rw [ha] <;> simp
    rw [hca]
    simp [List.count_cons, processed_ne_local env]

end AudioBackend

namespace AudioBackend

/-- A request asking for both a key change and a tempo change. -/
def dataBoth : List (String × JVal) :=
  [("audio_file_url", .str "https://s/a.wav"), ("user_id", .str "alice"),
   ("audio_file_id", .str "job1"), ("desired_key", .str "D Major"),
   ("desired_tempo", .num 150)]

/-- C7 witnessed on a concrete job requesting both transforms. -/
theorem c7_witness :
    (tempoOut envOk dataBoth).1 =
      envOk.time_stretch
        (envOk.pitch_shift envOk.loadedSignal envOk.sampleRate
          (get_semitone_shift ((detectedOf envOk).1.getD "")
            ((reqKey dataBoth).getD "")))
        (tempoRatio (reqTempo dataBoth) (detectedOf envOk).2) ∧
    (∃ l1 l2 l3, (process_audio envOk dataBoth).2 =
      l1 ++ [Event.pitchShiftCall (get_semitone_shift
          ((detectedOf envOk).1.getD "") ((reqKey dataBoth).getD ""))] ++
      l2 ++ [Event.timeStretchCall
          (tempoRatio (reqTempo dataBoth) (detectedOf envOk).2)] ++ l3) ∧
    Event.writeFile (processed_audio_path envOk) ∈
      (process_audio envOk dataBoth).2 ∧
    processed_audio_path envOk ≠ local_audio_path envOk ∧
    (process_audio envOk dataBoth).2.count
      (Event.writeFile (local_audio_path envOk)) = 1 := by
  have hr : tempoRatio (reqTempo dataBoth) (detectedOf envOk).2 ≠ 1 := by
    have e1 : reqTempo dataBoth = some 150 := by decide
    have e2 : (detectedOf envOk).2 = some 100 := by decide
    rw [e1, e2, tempoRatio]
    have g1 : qtruthy (some (150 : ℚ)) = true := by decide
    have g2 : qtruthy (some (100 : ℚ)) = true := by decide
    rw [g1, g2]
    norm_num
  exact c7_transform_order envOk dataBoth (by decide) (by decide) (by decide)
    (by decide) (by decide) (by decide) (by decide) hr (by decide)

end AudioBackend

namespace AudioBackend

/-- Test for any upload event. -/
def isUpload : Event → Bool
  | .upload _ _ _ => true
  | _ => false

/-- Whether an upload's options carry any overwrite/upsert instruction. -/
def uploadInstructsOverwrite : Event → Bool
  | .upload _ _ opts => opts.any (fun p =>
      p.1 == "upsert" || p.1 == "overwrite" || p.1 == "x-upsert")
  | _ => false

/-- Modelled from the spec: the storage object path convention the
specification asserts for published artifacts,
`<ownerId>/<category>/<jobId>.<ext>`. -/
def specArtifactPath (ownerId category jobId ext : String) : String :=
  ownerId ++ "/" ++ category ++ "/" ++ jobId ++ "." ++ ext

/-- C5 counterexample: on a concrete successful job (owner "alice", job
"job1") the two uploads use the paths
`processed_audio/alice/job1_processed.wav` and `midi_files/alice/job1.mid` —
category first, owner second, and a `_processed` suffix on the audio file —
which differ from the claimed `<ownerId>/<category>/<jobId>.<ext>`
convention, and neither upload carries any overwrite/upsert instruction
(only a content type is passed). -/
theorem c5_counterexample :
    (process_audio envOk dataShift).2.filter isUpload =
      [Event.upload "processed-audio"
         "processed_audio/alice/job1_processed.wav"
         [("contentType", "audio/wav")],
       Event.upload "midi-files" "midi_files/alice/job1.mid"
         [("contentType", "audio/midi")]] ∧
    "processed_audio/alice/job1_processed.wav" ≠
      specArtifactPath "alice" "processed_audio" "job1" "wav" ∧
    "midi_files/alice/job1.mid" ≠
      specArtifactPath "alice" "midi_files" "job1" "mid" ∧
    (∀ e ∈ (process_audio envOk dataShift).2.filter isUpload,
      uploadInstructsOverwrite e = false) := by
  decide

/-- C5 (amended): every upload the handler ever performs goes to one of the
two code paths `processed_audio/<ownerId>/<jobId>_processed.wav` (bucket
`processed-audio`) or `midi_files/<ownerId>/<jobId>.mid` (bucket
`midi-files`), with only a content type among its options and no
overwrite/upsert instruction. -/
theorem c5_amended_storage_paths (env : Env) (data : List (String × JVal))
    (e : Event) (he : e ∈ (process_audio env data).2)
    (hu : isUpload e = true) :
    (e = Event.upload "processed-audio"
        (processedStoragePath (reqUser data) (reqFile data))
        [("contentType", "audio/wav")] ∧
      uploadInstructsOverwrite e = false) ∨
    (e = Event.upload "midi-files"
        (midiStoragePath (reqUser data) (reqFile data))
        [("contentType", "audio/midi")] ∧
      uploadInstructsOverwrite e = false) := by
  by_cases hv1 : truthy (jget data "audio_file_url") = true
  rotate_left
  · rw [invalid_trace env data (fun hh => hv1 hh.1)] at he
    simp at he
  by_cases hv2 : truthy (jget data "user_id") = true
  rotate_left
  · rw [invalid_trace env data (fun hh => hv2 hh.2.1)] at he
    simp at he
  by_cases hv3 : truthy (jget data "audio_file_id") = true
  rotate_left
  · rw [invalid_trace env data (fun hh => hv3 hh.2.2)] at he
    simp at he
  by_cases hdl : env.downloadStatus < 400
  rotate_left
  · rw [dlfail_trace env data hv1 hv2 hv3 (by omega)] at he
    simp only [List.mem_cons, List.not_mem_nil, or_false,
      List.mem_singleton] at he
    rcases he with h | h <;> subst h <;> simp [isUpload] at hu
  rcases mem_trace_cases env data e hv1 hv2 hv3 hdl he with
    h' | h' | h' | h' | h' | h' | h' | ⟨st, pu, mu, h'⟩ | h'
  · subst h'; simp [isUpload] at hu
  · subst h'; simp [isUpload] at hu
  · subst h'; simp [isUpload] at hu
  · rcases pitchStage_events env (reqKey data) (detectedOf env).1
      env.loadedSignal with hE | hE <;> rw [pitchOut, hE] at h'
    · simp at h'
    · simp only [List.mem_singleton] at h'
      subst h'; simp [isUpload] at hu
  · rcases tempoStage_events env (reqTempo data) (detectedOf env).2
      (pitchOut env data).1 with hE | hE <;> rw [tempoOut, hE] at h'
    · simp at h'
    · simp only [List.mem_singleton] at h'
      subst h'; simp [isUpload] at hu
  · rcases processedPublish_events env (reqUser data) (reqFile data)
      env.loadedSignal (tempoOut env data).1 with hE | hE <;>
      rw [pubOut, hE] at h'
    · simp at h'
    · simp only [List.mem_cons, List.not_mem_nil, or_false,
        List.mem_singleton] at h'
      rcases h' with h' | h' <;> subst h'
      · simp [isUpload] at hu
      · exact Or.inl ⟨rfl, rfl⟩
  · rcases midiStage_events env (reqUser data) (reqFile data) with
      hE | ⟨fn, hE⟩ <;> rw [midOut, hE] at h'
    · simp only [List.mem_singleton] at h'
      subst h'; simp [isUpload] at hu
    · simp only [List.mem_cons, List.not_mem_nil, or_false,
        List.mem_singleton] at h'
      rcases h' with h' | h' | h' <;> subst h'
      · simp [isUpload] at hu
      · simp [isUpload] at hu
      · exact Or.inr ⟨rfl, rfl⟩
  · subst h'; simp [isUpload] at hu
  · subst h'; simp [isUpload] at hu

/-- C5 (amended) witnessed at the concrete processed-audio upload of a
successful job. -/
theorem c5_amended_witness :
    (Event.upload "processed-audio"
        "processed_audio/alice/job1_processed.wav"
        [("contentType", "audio/wav")] =
      Event.upload "processed-audio"
        (processedStoragePath (reqUser dataShift) (reqFile dataShift))
        [("contentType", "audio/wav")] ∧
      uploadInstructsOverwrite (Event.upload "processed-audio"
        "processed_audio/alice/job1_processed.wav"
        [("contentType", "audio/wav")]) = false) ∨
    (Event.upload "processed-audio"
        "processed_audio/alice/job1_processed.wav"
        [("contentType", "audio/wav")] =
      Event.upload "midi-files"
        (midiStoragePath (reqUser dataShift) (reqFile dataShift))
        [("contentType", "audio/midi")] ∧
      uploadInstructsOverwrite (Event.upload "processed-audio"
        "processed_audio/alice/job1_processed.wav"
        [("contentType", "audio/wav")]) = false) :=
  c5_amended_storage_paths envOk dataShift
    (Event.upload "processed-audio"
      "processed_audio/alice/job1_processed.wav"
      [("contentType", "audio/wav")])
    (by decide) (by decide)

end AudioBackend

namespace AudioBackend

/-- An environment in which the transcription collaborator fails but
everything else succeeds. -/
def envC1 : Env := { envOk with transcription := .error () }

/-- An environment in which publishing the processed audio fails. -/
def envC1b : Env := { envOk with uploadProcessedOk := false }

/-- C1 counterexample: on a concrete job whose transform published a
processed-audio artifact while the transcription stage failed, the response
status is "success" — not the claimed "partial" — even though the published
artifact's URL is present and the transcription URL is absent. -/
theorem c1_counterexample :
    envC1.transcription = Except.error () ∧
    (process_audio envC1 dataShift).1.processedUrl =
      some "https://x.supabase.co/processed-audio/processed_audio/alice/job1_processed.wav" ∧
    (process_audio envC1 dataShift).1.midiUrl = none ∧
    (process_audio envC1 dataShift).1.statusField = "success" ∧
    (process_audio envC1 dataShift).1.statusField ≠ "partial" :=
  ⟨rfl, by decide, by decide, by decide, by decide⟩

/-- C1 (amended): there is no "partial" status.  (i) When the transform
published its artifact and the transcription stage then fails, the response
is the 200 "success" body carrying the processed-audio URL and no MIDI URL.
(ii) In the reverse direction, a failure while publishing the processed
audio aborts the whole request with the 500 catch-all error response before
the transcription stage ever runs. -/
theorem c1_amended_no_partial_status (env : Env)
    (data : List (String × JVal))
    (h1 : truthy (jget data "audio_file_url") = true)
    (h2 : truthy (jget data "user_id") = true)
    (h3 : truthy (jget data "audio_file_id") = true)
    (hdl : env.downloadStatus < 400)
    (hch : (tempoOut env data).1 ≠ env.loadedSignal) :
    (env.uploadProcessedOk = true → env.transcription = .error () →
     env.dbOk = true →
     (process_audio env data).1 =
       Response.ok (detectedOf env).1 (detectedOf env).2
         (some (env.publicUrlOf "processed-audio"
           (processedStoragePath (reqUser data) (reqFile data)))) none ∧
     (process_audio env data).1.statusField = "success") ∧
    (env.uploadProcessedOk = false →
     (process_audio env data).1 = .err 500 "An unexpected error occurred" ∧
     Event.transcribeCall ∉ (process_audio env data).2) := by
  have hdl' : ¬ 400 ≤ env.downloadStatus := by omega
  have hne : env.loadedSignal ≠ (tempoOut env data).1 := fun hh => hch hh.symm
  constructor
  · intro hup htr hdb
    have hpub : processedPublish env (reqUser data) (reqFile data)
        env.loadedSignal (tempoOut env data).1 =
        (.ok (some (env.publicUrlOf "processed-audio"
           (processedStoragePath (reqUser data) (reqFile data)))),
         [Event.writeFile (processed_audio_path env),
          Event.upload "processed-audio"
            (processedStoragePath (reqUser data) (reqFile data))
            [("contentType", "audio/wav")]]) := by
      simp [processedPublish, hne, hup]
    have hmid : midiStage env (reqUser data) (reqFile data) =
        (none, [Event.transcribeCall]) := by
      simp [midiStage, htr]
    simp only [tempoOut, pitchOut] at hpub
    rw [process_audio_valid env data h1 h2 h3]
    unfold wrap runBody
    simp only [hdl', if_false, hpub, hmid]
    simp [dbStage, hdb, Response.statusField]
  · intro hup
    have hpub : processedPublish env (reqUser data) (reqFile data)
        env.loadedSignal (tempoOut env data).1 =
        (.error .generalExc,
         [Event.writeFile (processed_audio_path env),
          Event.upload "processed-audio"
            (processedStoragePath (reqUser data) (reqFile data))
            [("contentType", "audio/wav")]]) := by
      simp [processedPublish, hne, hup]
    simp only [tempoOut, pitchOut] at hpub
    rw [process_audio_valid env data h1 h2 h3]
    unfold wrap runBody
    simp only [hdl', if_false, hpub]
    refine ⟨by simp [errMessage], ?_⟩
    have hA := analysisStage_events env
    have hP := pitchStage_events env (reqKey data) (detectedOf env).1
      env.loadedSignal
    have hT := tempoStage_events env (reqTempo data) (detectedOf env).2
      (pitchStage env (reqKey data) (detectedOf env).1 env.loadedSignal).1
    rcases hA with hA | hA <;> rcases hP with hP | hP <;>
      rcases hT with hT | hT <;> simp [hA, hP, hT]

/-- C1 (amended) witnessed: with the transcription collaborator failing the
outcome is "success" with the processed URL present; with the
processed-audio publication failing the request aborts with a 500 before
transcription. -/
theorem c1_amended_witness :
    ((process_audio envC1 dataShift).1 =
       Response.ok (detectedOf envC1).1 (detectedOf envC1).2
         (some (envC1.publicUrlOf "processed-audio"
           (processedStoragePath (reqUser dataShift) (reqFile dataShift))))
         none ∧
     (process_audio envC1 dataShift).1.statusField = "success") ∧
    ((process_audio envC1b dataShift).1 =
       .err 500 "An unexpected error occurred" ∧
     Event.transcribeCall ∉ (process_audio envC1b dataShift).2) :=
  ⟨(c1_amended_no_partial_status envC1 dataShift (by decide) (by decide)
      (by decide) (by decide) (by decide)).1 rfl rfl rfl,
   (c1_amended_no_partial_status envC1b dataShift (by decide) (by decide)
      (by decide) (by decide) (by decide)).2 rfl⟩

end AudioBackend
